import Mathlib

/-!
Verification of the connection/session liveness and recovery subsystem of the
ai-image-edit web client.

The embedding below translates `src/lib/supabase.js` (the session cache,
refresh coalescing, connection health probe and recovery orchestrator) and
`src/lib/supabase-request.js` (the request wrapper `withSessionRefresh`) into
pure Lean functions.  The JavaScript runtime is single threaded: an `async`
function runs synchronously up to its first `await`, so overlapping calls
interleave only at `await` points.  Each awaited external operation (network
fetch, auth API call, timer) is represented by an oracle value supplied in an
environment structure, and module level mutable bindings become fields of an
explicit state record threaded through every function.  Thrown exceptions /
rejected promises are modelled with `Except String` (or `Except JsError`), and
`try`/`catch`/`finally` blocks are translated structurally.
-/

namespace AIImageEdit

/-- User identity carried inside a session (`session.user`). -/
structure User where
  id : String
  email : String
  deriving DecidableEq, Repr

/-- Session shape used by `supabase.js`: `expires_at` is epoch seconds and may
be absent (the code guards with `!session?.expires_at`); `user` is read with
`session?.user ?? null`, so it is optional here. -/
structure Session where
  access_token : String
  expires_at : Option Int
  user : Option User
  deriving DecidableEq, Repr

/-- JavaScript error value as inspected by the classifiers: `name`, `message`
and `code` are the only fields the code reads. -/
structure JsError where
  name : String
  message : String
  code : String
  deriving DecidableEq, Repr

/-- Character-list test that `pat` is an initial segment. -/
def startsWithChars : List Char → List Char → Bool
  | _, [] => true
  | [], _ :: _ => false
  | a :: as, b :: bs => (a == b) && startsWithChars as bs

/-- Character-list substring containment. -/
def containsChars : List Char → List Char → Bool
  | [], pat => pat.isEmpty
  | a :: as, pat => startsWithChars (a :: as) pat || containsChars as pat

/-- JavaScript `String.prototype.includes`: substring containment. -/
def jsIncludes (hay needle : String) : Bool :=
  containsChars hay.data needle.data

/-- JavaScript `String.prototype.toLowerCase` (over the code points). -/
def strToLower (s : String) : String :=
  String.mk (s.data.map Char.toLower)

/-!  Constants from `supabase.js` lines 12-15 and 74. -/

/-- Session refresh timeout, `supabase.js` line 14. -/
def SESSION_REFRESH_TIMEOUT_MS : Nat := 8000

/-- Expiry buffer in seconds, `supabase.js` line 15. -/
def SESSION_EXPIRY_BUFFER_SECONDS : Int := 60

/-- Minimum recovery interval in ms, `supabase.js` line 74. -/
def MIN_RECOVERY_INTERVAL : Nat := 3000

/-- Module level mutable bindings of `supabase.js` (lines 69-80) together with
two ghost instrumentation counters: `refreshNetworkCalls` counts invocations of
the external `auth.refreshSession()` network request, and `ensureFreshCalls`
counts the `ensureFreshSession` attempts issued by the recovery orchestrator's
retry loop.  The ghost counters are never read by the modelled control flow. -/
structure SupaState where
  isRecoveryInProgress : Bool
  lastRecoveryTime : Nat
  recoveryCooldown : Bool
  lastHiddenTime : Nat
  cachedSession : Option Session
  cachedUser : Option User
  sessionUpdatedAt : Nat
  sessionRefreshPromise : Option Nat
  activeAbortControllers : Nat
  refreshNetworkCalls : Nat
  ensureFreshCalls : Nat
  deriving DecidableEq, Repr

/-- Initial values of the module level bindings (`supabase.js` lines 69-80):
no recovery in progress, no cooldown, empty caches, no in-flight refresh. -/
def initSupaState : SupaState :=
  { isRecoveryInProgress := false
    lastRecoveryTime := 0
    recoveryCooldown := false
    lastHiddenTime := 0
    cachedSession := none
    cachedUser := none
    sessionUpdatedAt := 0
    sessionRefreshPromise := none
    activeAbortControllers := 0
    refreshNetworkCalls := 0
    ensureFreshCalls := 0 }

/-- `updateCachedSession` (`supabase.js` lines 143-147): sets the three cache
bindings together.  `cachedSession = session || null` and
`cachedUser = session?.user ?? null`; `sessionUpdatedAt = Date.now()` is the
`now` argument (milliseconds). -/
def updateCachedSession (st : SupaState) (session : Option Session) (now : Nat) : SupaState :=
  { st with
    cachedSession := session
    cachedUser := session.bind Session.user
    sessionUpdatedAt := now }

/-- `getSessionSnapshot` (`supabase.js` lines 571-577): synchronously returns
the cached triple; performs no I/O (it is a pure read of the three bindings). -/
structure SessionSnapshot where
  session : Option Session
  user : Option User
  updatedAt : Nat
  deriving DecidableEq, Repr

/-- Translation of `getSessionSnapshot` (`supabase.js` lines 571-577). -/
def getSessionSnapshot (st : SupaState) : SessionSnapshot :=
  { session := st.cachedSession
    user := st.cachedUser
    updatedAt := st.sessionUpdatedAt }

/-- `isSessionExpiring` (`supabase.js` lines 253-257).  `nowSec` is
`Math.floor(Date.now() / 1000)`.  The guard `!session?.expires_at` is truthy
for a missing session, a missing `expires_at`, and the falsy number `0`, hence
the explicit `e = 0` case. -/
def isSessionExpiring (session : Option Session) (nowSec : Int) : Bool :=
  match session with
  | none => true
  | some s =>
    match s.expires_at with
    | none => true
    | some e => if e = 0 then true else e - nowSec ≤ SESSION_EXPIRY_BUFFER_SECONDS

/-!  Connection health probe (`supabase.js` lines 183-203). -/

/-- HTTP response as seen by the probe; per the Fetch standard `response.ok`
means the status is in the inclusive range 200-299. -/
structure JsResponse where
  status : Nat
  deriving DecidableEq, Repr

/-- Fetch standard definition of `Response.ok`. -/
def JsResponse.ok (r : JsResponse) : Bool :=
  200 ≤ r.status && r.status ≤ 299

/-- Outcome of the probe's `fetch`: either an HTTP response arrived, or the
promise rejected (network-level exception, or the `AbortError` produced when
the 30s timeout fires `controller.abort()`). -/
inductive FetchOutcome where
  | response (r : JsResponse)
  | failure (message : String)
  deriving DecidableEq, Repr

/-- `testConnectionHealth` (`supabase.js` lines 183-203): the whole body is a
`try`/`catch`; a response yields `response.ok || response.status === 400`, and
the `catch` arm turns every rejection (including timeout aborts) into
`false`.  Totality of this function is the `never throws` part of the
contract: the `catch` leaves no rejection path. -/
def testConnectionHealth (o : FetchOutcome) : Bool :=
  match o with
  | .response r => r.ok || r.status == 400
  | .failure _ => false

/-!  Session refresh path (`supabase.js` lines 259-309).

`refreshSessionInternal` awaits `withTimeout(auth.refreshSession(), t)`; the
oracle for that single awaited operation either throws (timeout or rejected
network promise) or produces the supabase `{ data, error }` envelope. -/

/-- Outcome of `withTimeout(supabaseInstance.auth.refreshSession(), t)`. -/
inductive AuthRefreshOutcome where
  | throws (message : String)
  | result (error : Option JsError) (session : Option Session)
  deriving DecidableEq, Repr

/-- Oracles for one `refreshSession` run: the refresh call itself, the
`getSessionWithTimeout` on the no-session path (line 291), and the
`getSessionWithTimeout` in the `catch` fallback (line 299). -/
structure RefreshEnv where
  refresh : AuthRefreshOutcome
  getAfterRefresh : Except String (Option Session)
  getFallback : Except String (Option Session)
  deriving Repr

/-- `refreshSessionInternal` (`supabase.js` lines 267-282).  Issues exactly one
`auth.refreshSession()` network request (ghost counter), then: a rejection
propagates (`Except.error`); an `{error}` envelope is logged and returns
`null`; a fresh session updates the cache and is returned; otherwise `null`. -/
def refreshSessionInternal (o : AuthRefreshOutcome) (now : Nat) (st : SupaState) :
    Except String (Option Session) × SupaState :=
  let st1 := { st with refreshNetworkCalls := st.refreshNetworkCalls + 1 }
  match o with
  | .throws m => (.error m, st1)
  | .result (some _) _ => (.ok none, st1)
  | .result none (some s) => (.ok (some s), updateCachedSession st1 (some s) now)
  | .result none none => (.ok none, st1)

/-- `refreshSession` (`supabase.js` lines 284-309).  Structure: `try` around
`refreshSessionInternal`; on a `null` result read the current session and cache
it if present; any exception falls to the `catch`, which tries one fallback
`getSessionWithTimeout` and returns `null` if that also throws.  The function
never throws (its return type carries no exception). -/
def refreshSession (env : RefreshEnv) (now : Nat) (st : SupaState) :
    Option Session × SupaState :=
  match refreshSessionInternal env.refresh now st with
  | (.ok (some s), st1) => (some s, st1)
  | (.ok none, st1) =>
    match env.getAfterRefresh with
    | .ok (some existing) => (some existing, updateCachedSession st1 (some existing) now)
    | .ok none => (none, st1)
    | .error _ =>
      match env.getFallback with
      | .ok (some fb) => (some fb, updateCachedSession st1 (some fb) now)
      | .ok none => (none, st1)
      | .error _ => (none, st1)
  | (.error _, st1) =>
    match env.getFallback with
    | .ok (some fb) => (some fb, updateCachedSession st1 (some fb) now)
    | .ok none => (none, st1)
    | .error _ => (none, st1)

/-!  `ensureFreshSession` (`supabase.js` lines 311-347).

The function is synchronous from entry until `await sessionRefreshPromise`
(line 343): the guard checks (lines 318-324) and the creation of the refresh
flight — the async IIFE runs synchronously through `refreshSession` into
`refreshSessionInternal`, where calling `auth.refreshSession()` issues the one
network refresh request before the first `await` suspends it.  In the single
threaded runtime, overlapping `ensureFreshSession` calls therefore execute
their preludes atomically in arrival order, and the flight's continuation
(everything after that first `await`) runs when the refresh settles.  The
prelude below is that synchronous prefix; `flightBody` is the IIFE of lines
326-340; `resolveFlight` is its completion plus the `finally` of lines
344-346. -/

/-- What a single `ensureFreshSession` call did synchronously: returned the
in-flight promise (line 319), returned the fresh cached session (line 323), or
created the refresh flight and suspended awaiting it (lines 326, 343). -/
inductive EnsureOutcome where
  | joined (flight : Nat)
  | cached (s : Session)
  | started (flight : Nat)
  deriving DecidableEq, Repr

/-- Synchronous prefix of `ensureFreshSession` (`supabase.js` lines 311-343).
`newId` is the identifier the new flight gets if one is created; `now` is
`Date.now()` in milliseconds. -/
def ensureFreshPrelude (force : Bool) (now : Nat) (newId : Nat) (st : SupaState) :
    EnsureOutcome × SupaState :=
  match st.sessionRefreshPromise with
  | some fid => (.joined fid, st)
  | none =>
    match st.cachedSession with
    | some s =>
      if !force && !isSessionExpiring (some s) ((now / 1000 : Nat) : Int) then
        (.cached s, st)
      else
        (.started newId, { st with sessionRefreshPromise := some newId })
    | none =>
      (.started newId, { st with sessionRefreshPromise := some newId })

/-- Oracles for one refresh flight: the `refreshSession` run of line 327 and
the `getSessionWithTimeout` of line 330 (attempted only when the refresh
returned `null`, wrapped in its own `try`/`catch`). -/
structure FlightEnv where
  refreshEnv : RefreshEnv
  getCurrent : Except String (Option Session)
  deriving Repr

/-- The async IIFE of `supabase.js` lines 326-340: run `refreshSession`; if it
yielded `null`, try reading the current session (caching it when present,
swallowing exceptions); finally return `refreshed || null`. -/
def flightBody (env : FlightEnv) (now : Nat) (st : SupaState) :
    Option Session × SupaState :=
  match refreshSession env.refreshEnv now st with
  | (some s, st1) => (some s, st1)
  | (none, st1) =>
    match env.getCurrent with
    | .ok (some current) => (some current, updateCachedSession st1 (some current) now)
    | .ok none => (none, st1)
    | .error _ => (none, st1)

/-- Completion of the flight: its value is delivered to every awaiting caller
and the `finally` of lines 344-346 clears `sessionRefreshPromise`. -/
def resolveFlight (env : FlightEnv) (now : Nat) (st : SupaState) :
    Option Session × SupaState :=
  let r := flightBody env now st
  (r.1, { r.2 with sessionRefreshPromise := none })

/-- Run the synchronous preludes of a batch of overlapping calls (arrival
order), collecting each call's synchronous outcome. -/
def runPreludes (calls : List Bool) (now : Nat) (newId : Nat) (st : SupaState) :
    List EnsureOutcome × SupaState :=
  match calls with
  | [] => ([], st)
  | force :: rest =>
    let p := ensureFreshPrelude force now newId st
    let q := runPreludes rest now newId p.2
    (p.1 :: q.1, q.2)

/-- Value each caller ultimately receives: joiners and the starter get the
flight's value; a caller that returned the cached session got it directly. -/
def callerValue (flightVal : Option Session) : EnsureOutcome → Option Session
  | .joined _ => flightVal
  | .started _ => flightVal
  | .cached s => some s

/-- Execution of a batch of overlapping `ensureFreshSession` calls: all
preludes run before the (at most one) in-flight refresh settles, then the
flight resolves and every awaiting caller receives its value. -/
def runOverlapping (calls : List Bool) (now : Nat) (env : FlightEnv) (st : SupaState) :
    List (Option Session) × SupaState :=
  let p := runPreludes calls now 0 st
  match p.2.sessionRefreshPromise with
  | some _ =>
    let r := resolveFlight env now p.2
    (p.1.map (callerValue r.1), r.2)
  | none => (p.1.map (callerValue none), p.2)

/-!  Request wrapper (`supabase-request.js` lines 1-138, the variant importing
only `ensureFreshSession`). -/

/-- Error classification patterns of `isAuthenticationError`
(`supabase-request.js` lines 101-110). -/
def authErrorPatterns : List String :=
  ["jwt", "token", "auth", "unauthorized", "not authenticated", "session", "pgrst301", "401"]

/-- `isAuthenticationError` (`supabase-request.js` lines 95-115): matches the
patterns against the lower-cased message and against the raw code. -/
def isAuthenticationError (error : Option JsError) : Bool :=
  match error with
  | none => false
  | some e =>
    let errorMessage := strToLower e.message
    let errorCode := e.code
    authErrorPatterns.any fun p => jsIncludes errorMessage p || jsIncludes errorCode p

/-- Patterns of `isNetworkError` (`supabase-request.js` lines 121-128). -/
def networkErrorPatterns : List String :=
  ["network", "failed to fetch", "load failed", "connection", "econnrefused", "timeout"]

/-- `isNetworkError` (`supabase-request.js` lines 117-131). -/
def isNetworkError (error : Option JsError) : Bool :=
  match error with
  | none => false
  | some e =>
    let errorMessage := strToLower e.message
    networkErrorPatterns.any fun p => jsIncludes errorMessage p

/-- The `{data, error}` envelope returned by a query. -/
structure ReqResult where
  data : Option String
  error : Option JsError
  deriving DecidableEq, Repr

/-- Outcome of one `await`ed `withTimeout(queryFn(), timeoutMs, '查询超时')`:
the promise resolves to a `{data, error}` envelope, or the timeout race rejects
with `new Error('查询超时')`, or the query's own promise rejects. -/
inductive QueryOutcome where
  | result (data : Option String) (error : Option JsError)
  | timeout
  | reject (e : JsError)
  deriving DecidableEq, Repr

/-- The error object `new Error('查询超时')` thrown by the timeout race. -/
def timeoutError : JsError := { name := "Error", message := "查询超时", code := "" }

/-- Oracles for one `withSessionRefresh` run: the first query attempt and the
(at most one) retry attempt.  `ensureFreshSession` never rejects (its model
above is total), so it needs no oracle here. -/
structure WsrEnv where
  firstQuery : QueryOutcome
  retryQuery : QueryOutcome
  deriving DecidableEq, Repr

/-- The abort/timeout test of `supabase-request.js` line 59. -/
def isAbortLike (e : JsError) : Bool :=
  e.message = "查询超时" || e.name = "AbortError" || jsIncludes e.message "aborted"

/-- Materialize a `QueryOutcome` as the value seen by `await promise`. -/
def QueryOutcome.toExcept : QueryOutcome → Except JsError ReqResult
  | .result d e => .ok { data := d, error := e }
  | .timeout => .error timeoutError
  | .reject e => .error e

/-- `withSessionRefresh` (`supabase-request.js` lines 32-93).  `Except.error`
means the returned promise REJECTS.  Control flow, mirrored branch by branch:
the first attempt's rejection is caught (line 39 `await promise` is inside the
`try`); an auth-classified error forces a session refresh and then executes
`return retryPromise` (line 52) — because that `return` is not `await`ed, a
rejection of the retry escapes the `try`/`catch` and rejects the whole call;
the `catch` arm (lines 57-92) retries abort/timeout and network errors inside
inner `try`/`catch` blocks that convert a second failure into
`{data:null, error}`, and returns `{data:null, error:e}` otherwise. -/
def withSessionRefresh (env : WsrEnv) : Except JsError ReqResult :=
  match env.firstQuery.toExcept with
  | .ok r =>
    match r.error with
    | none => .ok { data := r.data, error := none }
    | some e =>
      if isAuthenticationError (some e) then
        match env.retryQuery.toExcept with
        | .ok r2 => .ok r2
        | .error e2 => .error e2
      else
        .ok { data := r.data, error := some e }
  | .error e =>
    if isAbortLike e then
      match env.retryQuery.toExcept with
      | .ok r2 => .ok r2
      | .error e2 => .ok { data := none, error := some e2 }
    else if isNetworkError (some e) then
      match env.retryQuery.toExcept with
      | .ok r2 => .ok r2
      | .error e2 => .ok { data := none, error := some e2 }
    else
      .ok { data := none, error := some e }

/-!  Recovery orchestrator (`supabase.js` lines 375-522).

`recoverConnection` is synchronous from entry to the settle sleep of line 443:
the cooldown check (409-416), the reentrancy check (419-422), acquiring the
lock and stamping `lastRecoveryTime` (424-425), and clearing the tracked abort
controllers (430-436) all run before the first `await`.  Everything after is
the `try` body, whose awaited steps are fault-injectable oracles; the `catch`
(513-517) converts an escaped exception into `{success:false, error}`, and the
`finally` (518-521) releases the lock on both paths. -/

/-- Result shapes returned by `recoverConnection`: lines 413, 421, 512, 517. -/
inductive RecoveryResult where
  | skippedCooldown
  | skippedInProgress
  | completed (session : Option Session) (quickCheck : Bool)
  | failed (message : String)
  deriving DecidableEq, Repr

/-- Fault-injection oracles for one recovery run.  `settleThrows` and
`extraWaitThrows` inject a rejection into the sleeps of lines 443 and 452;
`health` is the probe of line 446 (in the source it never throws, cf.
`testConnectionHealth`, but fault injection may force it to); each entry of
`sessionAttempts` is one `ensureFreshSession` attempt of line 464 (missing
entries behave as a `null` session); `realtimeOutcome` feeds the
`reconnectRealtime` of line 490 and `callbackFaults` the subscriber callbacks
of line 509 — both of those are contained by `try`/`catch` in the source and
cannot escape. -/
structure RecoveryEnv where
  settleThrows : Bool
  health : Except String Bool
  extraWaitThrows : Bool
  sessionAttempts : List (Except String (Option Session))
  realtimeOutcome : Except String Unit
  callbackFaults : List (Except String Unit)
  deriving Repr

/-- A `try { x } catch (e) { log }` around a unit action: the exception is
swallowed.  Used for `reconnectRealtime` (lines 367-369, 489-493) and for each
recovery callback (lines 386-390). -/
def swallow (x : Except String Unit) : Except String Unit :=
  match x with
  | .ok u => .ok u
  | .error _ => .ok ()

/-- Session refresh retry loop of `recoverConnection` (lines 457-485): up to
`maxRetries` attempts; a successful attempt breaks with the session (the
underlying `ensureFreshSession` cached it); a `null` result or a thrown
attempt (caught at line 469) retries after a wait.  Each attempt bumps the
ghost counter `ensureFreshCalls`. -/
def sessionRetryLoop : Nat → List (Except String (Option Session)) → Nat → SupaState →
    Option Session × SupaState
  | 0, _, _, st => (none, st)
  | n + 1, attempts, now, st =>
    let st1 := { st with ensureFreshCalls := st.ensureFreshCalls + 1 }
    match attempts.headD (.ok none) with
    | .ok (some s) => (some s, updateCachedSession st1 (some s) now)
    | .ok none => sessionRetryLoop n attempts.tail now st1
    | .error _ => sessionRetryLoop n attempts.tail now st1

/-- The `try` body of `recoverConnection` (lines 429-512), starting at the
settle sleep.  Returns `.error` when an injected fault escapes to the `catch`;
otherwise `.ok session`.  Step numbering follows the source comments. -/
def recoverTryBody (quickCheck : Bool) (hiddenDuration : Nat) (now : Nat)
    (env : RecoveryEnv) (st : SupaState) :
    Except String (Option Session) × SupaState :=
  if env.settleThrows then (.error "settle sleep", st)
  else
    match env.health with
    | .error m => (.error m, st)
    | .ok apiReachable =>
      if !apiReachable && env.extraWaitThrows then (.error "network wait", st)
      else
        let maxRetries := if hiddenDuration > 60000 then 3 else 2
        let sessionStep :=
          if quickCheck then (none, st)
          else sessionRetryLoop maxRetries env.sessionAttempts now st
        match sessionStep with
        | (session, st1) =>
          let _realtimeStep : Except String Unit :=
            if quickCheck then .ok () else swallow (swallow env.realtimeOutcome)
          let _callbackStep : List (Except String Unit) := env.callbackFaults.map swallow
          (.ok session, st1)

/-- Synchronous prelude decision of `recoverConnection`. -/
inductive RecoveryPrelude where
  | skip (r : RecoveryResult)
  | proceed
  deriving DecidableEq, Repr

/-- Lines 406-436 of `recoverConnection`: the cooldown check (the branch can
clear `recoveryCooldown`), the reentrancy check, and — when proceeding —
acquiring the lock, stamping `lastRecoveryTime := Date.now()` and clearing the
tracked abort controllers.  `Nat` subtraction agrees with the JS comparison
at line 411: a negative JS difference and a truncated-to-zero `Nat` are both
below `MIN_RECOVERY_INTERVAL`. -/
def recoverPrelude (force : Bool) (now : Nat) (st : SupaState) :
    RecoveryPrelude × SupaState :=
  if st.recoveryCooldown && !force then
    if now - st.lastRecoveryTime < MIN_RECOVERY_INTERVAL then
      (.skip .skippedCooldown, st)
    else
      recoverPreludeLock force now { st with recoveryCooldown := false }
  else
    recoverPreludeLock force now st
where
  /-- Lines 419-436: reentrancy check and lock acquisition. -/
  recoverPreludeLock (force : Bool) (now : Nat) (st : SupaState) :
      RecoveryPrelude × SupaState :=
    if st.isRecoveryInProgress && !force then
      (.skip .skippedInProgress, st)
    else
      (.proceed,
        { st with
          isRecoveryInProgress := true
          lastRecoveryTime := now
          activeAbortControllers := 0 })

/-- Map the `try`/`catch` outcome to the returned object (lines 512 and 517). -/
def finishRecovery (quickCheck : Bool) : Except String (Option Session) → RecoveryResult
  | .ok session => .completed session quickCheck
  | .error e => .failed e

/-- `recoverConnection` (`supabase.js` lines 405-522) run to completion without
interleaving: prelude, then the `try` body, then the `catch` mapping and the
`finally` that unconditionally releases `isRecoveryInProgress`.
`hiddenDuration` is `Date.now() - lastHiddenTime` (line 426). -/
def recoverConnection (force quickCheck : Bool) (now : Nat) (env : RecoveryEnv)
    (st : SupaState) : RecoveryResult × SupaState :=
  match recoverPrelude force now st with
  | (.skip r, st1) => (r, st1)
  | (.proceed, st1) =>
    match recoverTryBody quickCheck (now - st.lastHiddenTime) now env st1 with
    | (outcome, st2) =>
      (finishRecovery quickCheck outcome, { st2 with isRecoveryInProgress := false })

/-- One recovery call description: `force`, `quickCheck`, entry time, oracles. -/
structure RecoveryCall where
  force : Bool
  quickCheck : Bool
  now : Nat
  env : RecoveryEnv
  deriving Repr

/-- Sequential execution of a list of recovery calls (each run to
completion). -/
def runRecoverySeq (calls : List RecoveryCall) (st : SupaState) : SupaState :=
  calls.foldl (fun s c => (recoverConnection c.force c.quickCheck c.now c.env s).2) st

/-- Two overlapping non-forced `recoverConnection({force:false})` calls: call A
enters at `tA`; if it proceeds it suspends at the settle sleep, at which point
call B's synchronous prelude runs at `tB`; afterwards the suspended bodies run
to completion.  (When B also proceeds — impossible for non-forced B while A
holds the lock — B's body is scheduled before A resumes.)  Returns A's result,
B's result, and the final state. -/
def recoverOverlapPair (tA tB : Nat) (envA envB : RecoveryEnv) (st : SupaState) :
    RecoveryResult × RecoveryResult × SupaState :=
  match recoverPrelude false tA st with
  | (.skip rA, st1) =>
    match recoverConnection false false tB envB st1 with
    | (rB, st2) => (rA, rB, st2)
  | (.proceed, st1) =>
    match recoverPrelude false tB st1 with
    | (.skip rB, st2) =>
      match recoverTryBody false (tA - st.lastHiddenTime) tA envA st2 with
      | (outA, st3) =>
        (finishRecovery false outA, rB, { st3 with isRecoveryInProgress := false })
    | (.proceed, st2) =>
      match recoverTryBody false (tB - st1.lastHiddenTime) tB envB st2 with
      | (outB, st3) =>
        match recoverTryBody false (tA - st.lastHiddenTime) tA envA
            { st3 with isRecoveryInProgress := false } with
        | (outA, st4) =>
          (finishRecovery false outA, finishRecovery false outB,
            { st4 with isRecoveryInProgress := false })

/-!  Heartbeat drift detector. -/

/-- Modelled from the spec: the drift-detecting heartbeat timer of spec §4.5
(Trigger Sources) is absent from the repository source — no repeating timer in
the client measures wall-clock deltas between ticks (the only `setInterval` in
the source is a 4-minute token-expiry poll with no drift logic).  Per the
spec, the detector keeps the time of the previous tick and the
hidden-timestamp, and counts the forced, non-quick recovery triggers it has
fired; it receives no visibility information at all. -/
structure HeartbeatState where
  lastTickTime : Nat
  lastHiddenTime : Nat
  forcedFullRecoveries : Nat
  deriving DecidableEq, Repr

/-- Modelled from the spec: nominal heartbeat interval (a repeating timer,
e.g. every 5s). -/
def HEARTBEAT_INTERVAL_MS : Nat := 5000

/-- Modelled from the spec: drift threshold (e.g. more than 15s for a 5s
timer). -/
def HEARTBEAT_DRIFT_THRESHOLD_MS : Nat := 15000

/-- Modelled from the spec: one heartbeat tick at wall-clock `now` records the
delta since the previous tick; if it greatly exceeds the expected interval the
process was frozen for the excess duration, so the hidden-timestamp is
back-dated by that excess and one forced, non-quick recovery is triggered;
otherwise only the tick time advances. -/
def heartbeatTick (now : Nat) (st : HeartbeatState) : HeartbeatState :=
  if now - st.lastTickTime > HEARTBEAT_DRIFT_THRESHOLD_MS then
    { lastTickTime := now
      lastHiddenTime := now - (now - st.lastTickTime - HEARTBEAT_INTERVAL_MS)
      forcedFullRecoveries := st.forcedFullRecoveries + 1 }
  else
    { st with lastTickTime := now }

/-- Modelled from the spec: the repeating timer is a fold of ticks over
successive wall-clock instants. -/
def runHeartbeat (ticks : List Nat) (st : HeartbeatState) : HeartbeatState :=
  ticks.foldl (fun s t => heartbeatTick t s) st

/-- Concrete session used by closed witness statements. -/
def sessionWitness : Session :=
  { access_token := "t"
    expires_at := some 500
    user := some { id := "u", email := "e" } }

/-- Session-cache coherence: the cached user is the cached session's `user`
field, and `null` when no session is cached. -/
def cacheConsistent (st : SupaState) : Prop :=
  st.cachedUser = st.cachedSession.bind Session.user

/-- Concrete session expiring at epoch second 1120, used by the C8 witness. -/
def sessionFresh1120 : Session :=
  { access_token := "t"
    expires_at := some 1120
    user := some { id := "u", email := "e" } }

/-- Initial state with `sessionFresh1120` cached. -/
def stateFresh1120 : SupaState :=
  { initSupaState with cachedSession := some sessionFresh1120 }

/-- Decidable equality on rejected-or-resolved request outcomes, for concrete
evaluation in closed theorems. -/
instance : DecidableEq (Except JsError ReqResult) := fun a b =>
  match a, b with
  | .ok x, .ok y =>
    if h : x = y then .isTrue (by rw [h]) else .isFalse (by simp [h])
  | .ok _, .error _ => .isFalse (by simp)
  | .error _, .ok _ => .isFalse (by simp)
  | .error x, .error y =>
    if h : x = y then .isTrue (by rw [h]) else .isFalse (by simp [h])

/-- Error whose message classifies as an authentication error (matches the
`jwt` pattern). -/
def jwtExpiredError : JsError := { name := "Error", message := "JWT expired", code := "" }

/-- Error message of a permanently invalid refresh token, as produced by the
auth backend. -/
def permanentTokenError : JsError :=
  { name := "AuthApiError", message := "Invalid Refresh Token: Already Used", code := "400" }

/-- Refresh oracle: the auth API answers the refresh with the permanent
refresh-token error; no current session is readable. -/
def envPermanentTokenFailure : RefreshEnv :=
  { refresh := .result (some permanentTokenError) none
    getAfterRefresh := .ok none
    getFallback := .ok none }

/-- Refresh oracle: the refresh call times out (a transient failure); no
current session is readable. -/
def envTransientTimeout : RefreshEnv :=
  { refresh := .throws "Timeout"
    getAfterRefresh := .ok none
    getFallback := .ok none }

/-- Recovery oracle whose session-refresh attempts all yield `null` — exactly
what `ensureFreshSession` produces when the underlying refresh fails with a
permanently invalid refresh token. -/
def envNullSessionAttempts : RecoveryEnv :=
  { settleThrows := false
    health := .ok true
    extraWaitThrows := false
    sessionAttempts := [.ok none, .ok none]
    realtimeOutcome := .ok ()
    callbackFaults := [] }

/-- State right after the recovery prelude acquires the lock (lines 424-436):
lock held, recovery time stamped, tracked controllers cleared. -/
def lockAcquired (st : SupaState) (now : Nat) : SupaState :=
  { st with
    isRecoveryInProgress := true
    lastRecoveryTime := now
    activeAbortControllers := 0 }

/-- Recovery environment in which every injectable step throws. -/
def envAllFaults : RecoveryEnv :=
  { settleThrows := true
    health := .error "probe failure"
    extraWaitThrows := true
    sessionAttempts := [.error "refresh failure"]
    realtimeOutcome := .error "realtime failure"
    callbackFaults := [.error "callback failure"] }

/-- Recovery environment in which every step succeeds and the first session
refresh attempt yields `sessionWitness`. -/
def envGoodRecovery : RecoveryEnv :=
  { settleThrows := false
    health := .ok true
    extraWaitThrows := false
    sessionAttempts := [.ok (some sessionWitness)]
    realtimeOutcome := .ok ()
    callbackFaults := [] }

/-- First non-forced recovery run of the C4 scenario, entered at t=100000ms
from the initial state. -/
def c4FirstRun : RecoveryResult × SupaState :=
  recoverConnection false false 100000 envGoodRecovery initSupaState

/-- Second non-forced recovery run of the C4 scenario, entered 100ms after the
first one's `lastRecoveryTime` stamp — well inside the claimed ~3s cooldown
window. -/
def c4SecondRun : RecoveryResult × SupaState :=
  recoverConnection false false 100100 envGoodRecovery c4FirstRun.2

/-- Interleaved pair of the C3 scenario: two non-forced recovery calls from
the initial state, the second entering 10ms after the first. -/
def c3OverlapRun : RecoveryResult × RecoveryResult × SupaState :=
  recoverOverlapPair 100000 100010 envGoodRecovery envGoodRecovery initSupaState

/-- Flight oracle for the C2 witness: the refresh succeeds with
`sessionWitness`. -/
def flightEnvGood : FlightEnv :=
  { refreshEnv := RefreshEnv.mk (.result none (some sessionWitness)) (.ok none) (.ok none)
    getCurrent := .ok none }

/-!  Theorems. -/

/-- C7: `testConnectionHealth` never throws (it is a total function into
`Bool`: the `catch` arm converts every rejection, including the timeout abort,
into `false`), and it returns `true` exactly when the HEAD request produced an
HTTP response whose status is a success status (200-299, the Fetch-standard
meaning of `response.ok`) or equals 400. -/
theorem testConnectionHealth_true_iff_reachable :
    (∀ o : FetchOutcome, testConnectionHealth o = true ↔
      ∃ r, o = .response r ∧ ((200 ≤ r.status ∧ r.status ≤ 299) ∨ r.status = 400))
    ∧ (∀ message, testConnectionHealth (.failure message) = false) := by
  constructor
  · intro o
    cases o with
    | response r =>
      simp [testConnectionHealth, JsResponse.ok]
    | failure m =>
      simp [testConnectionHealth]
  · intro message
    rfl

/-- C9: a heartbeat tick that observes a 20000ms wall-clock gap against the
5000ms nominal interval back-dates the hidden-timestamp by the excess
(15000ms, so it is set to 5000ms after the previous tick) and fires exactly
one forced, non-quick recovery; across a tick sequence whose only outsized gap
is that one, the forced-recovery count rises by exactly one.  The model has no
visibility input, so no visibility change is involved. -/
theorem heartbeat_gap_triggers_forced_recovery_once :
    (∀ t0 hidden n : Nat,
      heartbeatTick (t0 + 20000) ⟨t0, hidden, n⟩ = ⟨t0 + 20000, t0 + 5000, n + 1⟩)
    ∧ (∀ t0 hidden n : Nat,
      runHeartbeat [t0 + 5000, t0 + 10000, t0 + 30000, t0 + 35000] ⟨t0, hidden, n⟩
        = ⟨t0 + 35000, t0 + 15000, n + 1⟩) := by
  constructor
  · intro t0 hidden n
    simp only [heartbeatTick, HEARTBEAT_INTERVAL_MS, HEARTBEAT_DRIFT_THRESHOLD_MS]
    rw [if_pos (by omega)]
    simp only [HeartbeatState.mk.injEq]
    refine ⟨trivial, by omega, trivial⟩
  · intro t0 hidden n
    have h1 : heartbeatTick (t0 + 5000) ⟨t0, hidden, n⟩ = ⟨t0 + 5000, hidden, n⟩ := by
      simp only [heartbeatTick, HEARTBEAT_DRIFT_THRESHOLD_MS]
      rw [if_neg (by omega)]
    have h2 : heartbeatTick (t0 + 10000) ⟨t0 + 5000, hidden, n⟩ = ⟨t0 + 10000, hidden, n⟩ := by
      simp only [heartbeatTick, HEARTBEAT_DRIFT_THRESHOLD_MS]
      rw [if_neg (by omega)]
    have h3 : heartbeatTick (t0 + 30000) ⟨t0 + 10000, hidden, n⟩
        = ⟨t0 + 30000, t0 + 15000, n + 1⟩ := by
      simp only [heartbeatTick, HEARTBEAT_INTERVAL_MS, HEARTBEAT_DRIFT_THRESHOLD_MS]
      rw [if_pos (by omega)]
      simp only [HeartbeatState.mk.injEq]
      refine ⟨trivial, by omega, trivial⟩
    have h4 : heartbeatTick (t0 + 35000) ⟨t0 + 30000, t0 + 15000, n + 1⟩
        = ⟨t0 + 35000, t0 + 15000, n + 1⟩ := by
      simp only [heartbeatTick, HEARTBEAT_DRIFT_THRESHOLD_MS]
      rw [if_neg (by omega)]
    simp only [runHeartbeat, List.foldl, h1, h2, h3, h4]

/-- Every state produced by `updateCachedSession` is coherent, whatever it
overwrote. -/
lemma cacheConsistent_update (st : SupaState) (session : Option Session) (now : Nat) :
    cacheConsistent (updateCachedSession st session now) := rfl

/-- `refreshSession` touches the cache only through `updateCachedSession`, so
it preserves coherence. -/
lemma refreshSession_consistent (env : RefreshEnv) (now : Nat) (st : SupaState)
    (h : cacheConsistent st) : cacheConsistent (refreshSession env now st).2 := by
  rcases env with ⟨r, ga, gf⟩
  cases r with
  | throws m =>
    cases gf with
    | ok fb =>
      cases fb with
      | none => exact h
      | some s => rfl
    | error m2 => exact h
  | result e s =>
    cases e with
    | some e1 =>
      cases ga with
      | ok ex =>
        cases ex with
        | none => exact h
        | some x => rfl
      | error m2 =>
        cases gf with
        | ok fb =>
          cases fb with
          | none => exact h
          | some y => rfl
        | error m3 => exact h
    | none =>
      cases s with
      | some s1 => rfl
      | none =>
        cases ga with
        | ok ex =>
          cases ex with
          | none => exact h
          | some x => rfl
        | error m2 =>
          cases gf with
          | ok fb =>
            cases fb with
            | none => exact h
            | some y => rfl
          | error m3 => exact h

/-- `flightBody` preserves cache coherence. -/
lemma flightBody_consistent (env : FlightEnv) (now : Nat) (st : SupaState)
    (h : cacheConsistent st) : cacheConsistent (flightBody env now st).2 := by
  rcases env with ⟨renv, gc⟩
  have h0 := refreshSession_consistent renv now st h
  unfold flightBody
  rcases hr : refreshSession renv now st with ⟨v, st1⟩
  rw [hr] at h0
  cases v with
  | some s => exact h0
  | none =>
    cases gc with
    | ok c =>
      cases c with
      | some current => rfl
      | none => exact h0
    | error m => exact h0

/-- `resolveFlight` preserves cache coherence (clearing the in-flight promise
does not touch the cache). -/
lemma resolveFlight_consistent (env : FlightEnv) (now : Nat) (st : SupaState)
    (h : cacheConsistent st) : cacheConsistent (resolveFlight env now st).2 :=
  flightBody_consistent env now st h

/-- The recovery orchestrator's session retry loop preserves cache coherence
(it writes the cache only via `updateCachedSession`). -/
lemma sessionRetryLoop_consistent : ∀ (n : Nat) (attempts : List (Except String (Option Session)))
    (now : Nat) (st : SupaState), cacheConsistent st →
    cacheConsistent (sessionRetryLoop n attempts now st).2 := by
  intro n
  induction n with
  | zero => intro attempts now st h; exact h
  | succ k ih =>
    intro attempts now st h
    unfold sessionRetryLoop
    cases hatt : attempts.headD (Except.ok none) with
    | ok os =>
      cases os with
      | some s =>
        simp only [hatt]
        rfl
      | none =>
        simp only [hatt]
        exact ih attempts.tail now _ h
    | error m =>
      simp only [hatt]
      exact ih attempts.tail now _ h

/-- Cache fields are untouched by the recovery prelude. -/
lemma recoverPrelude_cache (force : Bool) (now : Nat) (st : SupaState) :
    ((recoverPrelude force now st).2).cachedUser = st.cachedUser
    ∧ ((recoverPrelude force now st).2).cachedSession = st.cachedSession := by
  unfold recoverPrelude recoverPrelude.recoverPreludeLock
  repeat' split
  all_goals exact ⟨rfl, rfl⟩

/-- The recovery `try` body preserves cache coherence. -/
lemma recoverTryBody_consistent (quickCheck : Bool) (hiddenDuration now : Nat)
    (env : RecoveryEnv) (st : SupaState) (h : cacheConsistent st) :
    cacheConsistent (recoverTryBody quickCheck hiddenDuration now env st).2 := by
  rcases env with ⟨settle, health, extraWait, attempts, rt, cbs⟩
  cases settle
  case true => exact h
  case false =>
    cases health with
    | error m => exact h
    | ok api =>
      cases api
      case false =>
        cases extraWait
        case true => exact h
        case false =>
          cases quickCheck
          case true => exact h
          case false => exact sessionRetryLoop_consistent _ attempts now st h
      case true =>
        cases quickCheck
        case true => exact h
        case false => exact sessionRetryLoop_consistent _ attempts now st h

/-- `recoverConnection` preserves cache coherence. -/
lemma recoverConnection_consistent (force quickCheck : Bool) (now : Nat)
    (env : RecoveryEnv) (st : SupaState) (h : cacheConsistent st) :
    cacheConsistent (recoverConnection force quickCheck now env st).2 := by
  unfold recoverConnection
  rcases hpre : recoverPrelude force now st with ⟨pr, st1⟩
  have h1 : cacheConsistent st1 := by
    have hc := recoverPrelude_cache force now st
    rw [hpre] at hc
    unfold cacheConsistent
    rw [hc.1, hc.2]
    exact h
  cases pr with
  | skip r => simp only [hpre]; exact h1
  | proceed =>
    simp only [hpre]
    rcases hbody : recoverTryBody quickCheck (now - st.lastHiddenTime) now env st1 with ⟨o, st2⟩
    have h2 : cacheConsistent st2 := by
      have := recoverTryBody_consistent quickCheck (now - st.lastHiddenTime) now env st1 h1
      rw [hbody] at this
      exact this
    exact h2

/-- C10: the cached user always equals the cached session's `user` field (or
`null` when no session is cached): the invariant holds initially, every write
goes through `updateCachedSession` — which sets `cachedSession`, `cachedUser`
and `sessionUpdatedAt` together and establishes the invariant outright — every
modelled operation that runs those writes preserves it, and
`getSessionSnapshot` is the pure projection of exactly this triple, performing
no I/O.  (That all cache writes in the module go through `updateCachedSession`
is a source-level fact: `cachedSession`/`cachedUser` are assigned only at
lines 144-145 of `supabase.js`.) -/
theorem session_cache_user_invariant :
    cacheConsistent initSupaState
    ∧ (∀ st session now, cacheConsistent (updateCachedSession st session now))
    ∧ (∀ env now st, cacheConsistent st → cacheConsistent (refreshSession env now st).2)
    ∧ (∀ env now st, cacheConsistent st → cacheConsistent (resolveFlight env now st).2)
    ∧ (∀ force quickCheck now env st, cacheConsistent st →
        cacheConsistent (recoverConnection force quickCheck now env st).2)
    ∧ (∀ st, getSessionSnapshot st
        = { session := st.cachedSession, user := st.cachedUser,
            updatedAt := st.sessionUpdatedAt }) :=
  ⟨rfl, cacheConsistent_update, refreshSession_consistent, resolveFlight_consistent,
    recoverConnection_consistent, fun _ => rfl⟩

/-- Closed witness for C10: the invariant holds in the initial state and is
preserved across a concrete `refreshSession` run. -/
theorem session_cache_user_invariant_witness :
    cacheConsistent initSupaState
    ∧ cacheConsistent (refreshSession
        { refresh := .result none (some sessionWitness),
          getAfterRefresh := .ok none, getFallback := .ok none } 5 initSupaState).2 :=
  ⟨session_cache_user_invariant.1,
    session_cache_user_invariant.2.2.1 _ 5 initSupaState session_cache_user_invariant.1⟩

/-- Every run of a refresh flight issues exactly one `auth.refreshSession()`
network request: `flightBody` calls `refreshSession` once, which calls
`refreshSessionInternal` once, and the fallback `getSession` reads are not
refresh requests. -/
lemma flightBody_refreshCalls (env : FlightEnv) (now : Nat) (st : SupaState) :
    ((flightBody env now st).2).refreshNetworkCalls = st.refreshNetworkCalls + 1 := by
  rcases env with ⟨⟨r, ga, gf⟩, gc⟩
  cases r with
  | throws m =>
    cases gf with
    | ok fb =>
      cases fb with
      | none =>
        cases gc with
        | ok c => cases c with
          | none => rfl
          | some current => rfl
        | error m2 => rfl
      | some s => rfl
    | error m2 =>
      cases gc with
      | ok c => cases c with
        | none => rfl
        | some current => rfl
      | error m3 => rfl
  | result e s =>
    cases e with
    | some e1 =>
      cases ga with
      | ok ex =>
        cases ex with
        | none =>
          cases gc with
          | ok c => cases c with
            | none => rfl
            | some current => rfl
          | error m2 => rfl
        | some x => rfl
      | error m2 =>
        cases gf with
        | ok fb =>
          cases fb with
          | none =>
            cases gc with
            | ok c => cases c with
              | none => rfl
              | some current => rfl
            | error m3 => rfl
          | some y => rfl
        | error m3 =>
          cases gc with
          | ok c => cases c with
            | none => rfl
            | some current => rfl
          | error m4 => rfl
    | none =>
      cases s with
      | some s1 => rfl
      | none =>
        cases ga with
        | ok ex =>
          cases ex with
          | none =>
            cases gc with
            | ok c => cases c with
              | none => rfl
              | some current => rfl
            | error m2 => rfl
          | some x => rfl
        | error m2 =>
          cases gf with
          | ok fb =>
            cases fb with
            | none =>
              cases gc with
              | ok c => cases c with
                | none => rfl
                | some current => rfl
              | error m3 => rfl
            | some y => rfl
          | error m3 =>
            cases gc with
            | ok c => cases c with
              | none => rfl
              | some current => rfl
            | error m4 => rfl

/-- C8: freshness classification of a non-forced `ensureFreshSession` call
with no refresh in flight.  A cached session whose `expires_at` lies 120s
ahead of the clock (more than the 60s buffer) is Fresh: the call returns it
immediately and the state — in particular the network-refresh counter — is
untouched.  The same session 30s ahead (inside the buffer), or a missing
`expires_at`, or a missing cached session, is Stale: the call starts a refresh
flight, and running that flight issues exactly one network refresh. -/
theorem ensureFreshSession_freshness_boundary (now : Nat) (s : Session) (st : SupaState)
    (newId : Nat) (hflight : st.sessionRefreshPromise = none) :
    (s.expires_at = some (((now / 1000 : Nat) : Int) + 120) → st.cachedSession = some s →
      ensureFreshPrelude false now newId st = (.cached s, st))
    ∧ (s.expires_at = some (((now / 1000 : Nat) : Int) + 30) → st.cachedSession = some s →
      ensureFreshPrelude false now newId st
        = (.started newId, { st with sessionRefreshPromise := some newId }))
    ∧ (s.expires_at = none → st.cachedSession = some s →
      ensureFreshPrelude false now newId st
        = (.started newId, { st with sessionRefreshPromise := some newId }))
    ∧ (st.cachedSession = none →
      ensureFreshPrelude false now newId st
        = (.started newId, { st with sessionRefreshPromise := some newId }))
    ∧ (∀ env, ((flightBody env now st).2).refreshNetworkCalls
        = st.refreshNetworkCalls + 1) := by
  refine ⟨?_, ?_, ?_, ?_, fun env => flightBody_refreshCalls env now st⟩
  · intro he hc
    have hexp : isSessionExpiring (some s) ((now / 1000 : Nat) : Int) = false := by
      simp only [isSessionExpiring, he]
      rw [if_neg (by omega)]
      rw [decide_eq_false_iff_not]
      simp only [SESSION_EXPIRY_BUFFER_SECONDS]
      omega
    simp only [ensureFreshPrelude, hflight, hc, hexp, Bool.not_false, Bool.and_self, if_true]
  · intro he hc
    have hexp : isSessionExpiring (some s) ((now / 1000 : Nat) : Int) = true := by
      simp only [isSessionExpiring, he]
      by_cases h0 : ((now / 1000 : Nat) : Int) + 30 = 0
      · rw [if_pos h0]
      · rw [if_neg h0]
        rw [decide_eq_true_eq]
        simp only [SESSION_EXPIRY_BUFFER_SECONDS]
        omega
    simp only [ensureFreshPrelude, hflight, hc, hexp, Bool.not_true, Bool.and_false,
      Bool.false_eq_true, if_false]
  · intro he hc
    have hexp : isSessionExpiring (some s) ((now / 1000 : Nat) : Int) = true := by
      simp only [isSessionExpiring, he]
    simp only [ensureFreshPrelude, hflight, hc, hexp, Bool.not_true, Bool.and_false,
      Bool.false_eq_true, if_false]
  · intro hc
    simp only [ensureFreshPrelude, hflight, hc]

/-- Closed witness for C8: at `now = 1000000` ms (so `nowSec = 1000`), the
cached session expiring at 1120 (120s ahead) is returned directly with the
state untouched. -/
theorem ensureFreshSession_freshness_boundary_witness :
    stateFresh1120.sessionRefreshPromise = none
    ∧ ensureFreshPrelude false 1000000 7 stateFresh1120
      = (.cached sessionFresh1120, stateFresh1120) :=
  ⟨rfl,
    (ensureFreshSession_freshness_boundary 1000000 sessionFresh1120 stateFresh1120 7 rfl).1
      (by decide) rfl⟩

/-- C5: `withSessionRefresh` CAN reject.  When the wrapped operation resolves
to an auth-classified error (`JWT expired`) and the single retry then times
out, the call rejects with the timeout error instead of resolving to a
`{data, error}` object: line 52 of `supabase-request.js` is `return
retryPromise` inside the `try` — without `await`, the async function's promise
adopts the retry promise after the `try`/`catch` frame is gone, so the retry's
rejection bypasses the `catch`.  (Every other path does resolve: the
`catch`-arm retries are wrapped in inner `try`/`catch` blocks.) -/
theorem withSessionRefresh_rejects_on_failed_auth_retry :
    withSessionRefresh (WsrEnv.mk (.result none (some jwtExpiredError)) .timeout)
      = .error timeoutError := by
  decide

/-- C6 counterexample: the refresh path performs no failure classification.
At a concrete input where `auth.refreshSession()` fails with `Invalid Refresh
Token: Already Used` (permanently invalid), `refreshSession` returns exactly
the same outcome — plain `null`, with no error surfaced — as when the refresh
merely times out (transient), so the permanent failure is neither surfaced as
unrecoverable nor distinguished from transient failures; and the recovery
orchestrator running over such null refreshes performs two
`ensureFreshSession` attempts (the second with `force:true`), i.e. the failed
refresh IS retried. -/
theorem refreshSession_permanent_error_indistinguishable :
    refreshSession envPermanentTokenFailure 1000 initSupaState
      = refreshSession envTransientTimeout 1000 initSupaState
    ∧ (refreshSession envPermanentTokenFailure 1000 initSupaState).1 = none
    ∧ ((recoverConnection false false 50000 envNullSessionAttempts initSupaState).2).ensureFreshCalls
        = 2 := by
  refine ⟨rfl, rfl, rfl⟩

/-- C6 amended: `refreshSession` handles every refresh-error envelope
identically, independent of the error's content and of any session data in the
envelope — a permanently invalid refresh token is not distinguished from any
other failure; the call never throws and returns the fallback `getSession`
read (or `null`). -/
theorem refreshSession_uniform_error_handling (e1 e2 : JsError) (s1 s2 : Option Session)
    (ga gf : Except String (Option Session)) (now : Nat) (st : SupaState) :
    refreshSession (RefreshEnv.mk (.result (some e1) s1) ga gf) now st
      = refreshSession (RefreshEnv.mk (.result (some e2) s2) ga gf) now st := by
  rfl

/-- From a lock-free, non-cooldown state the recovery prelude always proceeds:
it acquires the lock, stamps the recovery time, and clears the tracked
controllers. -/
lemma recoverPrelude_proceeds (force : Bool) (now : Nat) (st : SupaState)
    (h : st.isRecoveryInProgress = false) (hcd : st.recoveryCooldown = false) :
    recoverPrelude force now st = (.proceed, lockAcquired st now) := by
  unfold recoverPrelude recoverPrelude.recoverPreludeLock lockAcquired
  simp only [hcd, h, Bool.false_and, Bool.false_eq_true, if_false]

/-- From a lock-free, non-cooldown state, `recoverConnection` runs the `try`
body on the lock-acquired state, maps the outcome through the `catch`, and
releases the lock in the `finally`. -/
lemma recoverConnection_proceed_eq (force quickCheck : Bool) (now : Nat) (env : RecoveryEnv)
    (st : SupaState) (h : st.isRecoveryInProgress = false) (hcd : st.recoveryCooldown = false) :
    recoverConnection force quickCheck now env st
      = (finishRecovery quickCheck
          (recoverTryBody quickCheck (now - st.lastHiddenTime) now env (lockAcquired st now)).1,
        { (recoverTryBody quickCheck (now - st.lastHiddenTime) now env
            (lockAcquired st now)).2 with isRecoveryInProgress := false }) := by
  unfold recoverConnection
  rw [recoverPrelude_proceeds force now st h hcd]

/-- A completed `recoverConnection` call never leaves the lock held: the skip
paths do not touch it, and the proceed path releases it in the `finally`
translation, whatever faults the environment injects. -/
lemma recoverConnection_lock_free (force quickCheck : Bool) (now : Nat) (env : RecoveryEnv)
    (st : SupaState) (h : st.isRecoveryInProgress = false) :
    ((recoverConnection force quickCheck now env st).2).isRecoveryInProgress = false := by
  unfold recoverConnection recoverPrelude recoverPrelude.recoverPreludeLock
  cases force with
  | true =>
    simp only [Bool.not_true, Bool.and_false, Bool.false_eq_true, if_false]
  | false =>
    cases hcd : st.recoveryCooldown with
    | false =>
      simp only [hcd, h, Bool.false_and, Bool.false_eq_true, if_false, Bool.not_false,
        Bool.and_true]
    | true =>
      simp only [hcd, h, Bool.not_false, Bool.true_and, if_true]
      by_cases ht : now - st.lastRecoveryTime < MIN_RECOVERY_INTERVAL
      · rw [if_pos ht]
        exact h
      · rw [if_neg ht]
        simp only [h, Bool.false_and, Bool.false_eq_true, if_false, Bool.and_true]

/-- No sequence of completed recovery calls from the initial state leaves the
lock held. -/
lemma runRecoverySeq_lock_free (calls : List RecoveryCall) (st : SupaState)
    (h : st.isRecoveryInProgress = false) :
    (runRecoverySeq calls st).isRecoveryInProgress = false := by
  induction calls generalizing st with
  | nil => exact h
  | cons c rest ih =>
    exact ih _ (recoverConnection_lock_free c.force c.quickCheck c.now c.env st h)

/-- From a lock-free, non-cooldown state a recovery call is never skipped: it
runs its sequence and returns a completed or failed outcome. -/
lemma recoverConnection_not_skipped (force quickCheck : Bool) (now : Nat) (env : RecoveryEnv)
    (st : SupaState) (h : st.isRecoveryInProgress = false) (hcd : st.recoveryCooldown = false) :
    (recoverConnection force quickCheck now env st).1 ≠ .skippedInProgress
    ∧ (recoverConnection force quickCheck now env st).1 ≠ .skippedCooldown := by
  rw [recoverConnection_proceed_eq force quickCheck now env st h hcd]
  constructor <;>
  · rcases htb : (recoverTryBody quickCheck (now - st.lastHiddenTime) now env
        (lockAcquired st now)).1 with o | e <;>
      simp [finishRecovery, htb]

/-- C1: the reentrancy flag `isRecoveryInProgress` is always reset.  First
conjunct: from any lock-free state, every `recoverConnection` call — under
every fault-injection environment, including ones where the settle sleep, the
health probe, the session refresh attempts, the realtime reconnect or the
subscriber callbacks throw — terminates with the lock free again (the
`finally` of lines 518-521 releases it on both the success and the exception
path, and skip paths never touch it).  Second conjunct: consequently no
sequence of recovery calls from the initial state leaves the lock held.
Third conjunct: after any such sequence (for example one containing failed
runs), the next call is not skipped — it executes its recovery sequence. -/
theorem recoverConnection_always_releases_lock :
    (∀ force quickCheck now env st, st.isRecoveryInProgress = false →
      ((recoverConnection force quickCheck now env st).2).isRecoveryInProgress = false)
    ∧ (∀ calls, (runRecoverySeq calls initSupaState).isRecoveryInProgress = false)
    ∧ (∀ force quickCheck now env st,
        st.isRecoveryInProgress = false → st.recoveryCooldown = false →
        (recoverConnection force quickCheck now env st).1 ≠ .skippedInProgress
        ∧ (recoverConnection force quickCheck now env st).1 ≠ .skippedCooldown) :=
  ⟨recoverConnection_lock_free,
    fun calls => runRecoverySeq_lock_free calls initSupaState rfl,
    recoverConnection_not_skipped⟩

/-- Closed witness for C1: with every step throwing, a recovery run from the
initial state still ends with the lock free, and a subsequent call is not
skipped. -/
theorem recoverConnection_always_releases_lock_witness :
    initSupaState.isRecoveryInProgress = false
    ∧ ((recoverConnection false false 5 envAllFaults initSupaState).2).isRecoveryInProgress = false
    ∧ (recoverConnection false false 5 envAllFaults initSupaState).1 ≠ .skippedInProgress :=
  ⟨rfl,
    recoverConnection_always_releases_lock.1 false false 5 envAllFaults initSupaState rfl,
    (recoverConnection_always_releases_lock.2.2 false false 5 envAllFaults initSupaState
      rfl rfl).1⟩

/-- C4: the cooldown is dead code.  `recoveryCooldown` is initialized `false`
(line 75) and the only assignment to it in the module sets it `false` again
(line 415); nothing ever sets it `true`, so the skip branch of lines 409-416
is unreachable.  Concretely: after a completed non-forced recovery at
t=100000, a new non-forced call at t=100100 — 100ms after `lastRecoveryTime`,
far inside `MIN_RECOVERY_INTERVAL` — is NOT skipped: it runs the full
sequence again (its session-refresh attempt counter rises) and returns a
completed result instead of the claimed `{skipped:true}`. -/
theorem recoverConnection_cooldown_never_entered :
    c4FirstRun.1 = .completed (some sessionWitness) false
    ∧ c4FirstRun.2.recoveryCooldown = false
    ∧ c4FirstRun.2.lastRecoveryTime = 100000
    ∧ 100100 - c4FirstRun.2.lastRecoveryTime < MIN_RECOVERY_INTERVAL
    ∧ c4SecondRun.1 = .completed (some sessionWitness) false
    ∧ c4SecondRun.1 ≠ .skippedCooldown
    ∧ c4SecondRun.2.ensureFreshCalls = 2 := by
  decide

/-- C3 counterexample: the two overlapping non-forced calls do NOT resolve to
the same outcome.  The first call completes with the refreshed session; the
second call, whose synchronous prelude runs while the first holds the
reentrancy lock, returns the skip marker `{success:false, skipped:true}`
(lines 419-422) instead of awaiting the in-flight recovery's result. -/
theorem recoverConnection_overlap_divergent_outcomes :
    c3OverlapRun.1 = .completed (some sessionWitness) false
    ∧ c3OverlapRun.2.1 = .skippedInProgress
    ∧ c3OverlapRun.1 ≠ c3OverlapRun.2.1 := by
  decide

/-- C3 amended: of the two policies the spec allows, the implementation picks
the skip marker.  For every pair of overlapping non-forced calls from a
lock-free, non-cooldown state, the second call returns
`{success:false, skipped:true}` immediately and without modifying the state,
and the first call's outcome and the final state are exactly those of the
first call run alone. -/
theorem recoverConnection_overlap_skip_marker (tA tB : Nat) (envA envB : RecoveryEnv)
    (st : SupaState) (h : st.isRecoveryInProgress = false)
    (hcd : st.recoveryCooldown = false) :
    (recoverOverlapPair tA tB envA envB st).2.1 = .skippedInProgress
    ∧ ((recoverOverlapPair tA tB envA envB st).1,
        (recoverOverlapPair tA tB envA envB st).2.2)
      = recoverConnection false false tA envA st := by
  have hB : recoverPrelude false tB (lockAcquired st tA)
      = (.skip .skippedInProgress, lockAcquired st tA) := by
    unfold recoverPrelude recoverPrelude.recoverPreludeLock lockAcquired
    simp only [hcd, Bool.false_and, Bool.false_eq_true, if_false, Bool.not_false,
      Bool.true_and, if_true]
  have hov : recoverOverlapPair tA tB envA envB st
      = (finishRecovery false
          (recoverTryBody false (tA - st.lastHiddenTime) tA envA (lockAcquired st tA)).1,
        .skippedInProgress,
        { (recoverTryBody false (tA - st.lastHiddenTime) tA envA
            (lockAcquired st tA)).2 with isRecoveryInProgress := false }) := by
    unfold recoverOverlapPair
    rw [recoverPrelude_proceeds false tA st h hcd]
    simp only [hB]
  rw [hov, recoverConnection_proceed_eq false false tA envA st h hcd]
  exact ⟨rfl, rfl⟩

/-- Closed witness for the amended C3: from the initial state the second of
two overlapping non-forced calls gets the skip marker. -/
theorem recoverConnection_overlap_skip_marker_witness :
    initSupaState.isRecoveryInProgress = false
    ∧ (recoverOverlapPair 11 22 envGoodRecovery envNullSessionAttempts
        initSupaState).2.1 = .skippedInProgress :=
  ⟨rfl,
    (recoverConnection_overlap_skip_marker 11 22 envGoodRecovery envNullSessionAttempts
      initSupaState rfl rfl).1⟩

/-- A call whose prelude runs while a refresh flight is in flight returns
that flight's promise (line 319) and leaves the state untouched — in
particular it issues no request of its own. -/
lemma ensureFreshPrelude_joined (force : Bool) (now newId k : Nat) (st : SupaState)
    (h : st.sessionRefreshPromise = some k) :
    ensureFreshPrelude force now newId st = (.joined k, st) := by
  unfold ensureFreshPrelude
  rw [h]

/-- Unfolding equation for `runPreludes` on a non-empty batch. -/
lemma runPreludes_cons (f : Bool) (rest : List Bool) (now newId : Nat) (st : SupaState) :
    runPreludes (f :: rest) now newId st
      = ((ensureFreshPrelude f now newId st).1
          :: (runPreludes rest now newId (ensureFreshPrelude f now newId st).2).1,
        (runPreludes rest now newId (ensureFreshPrelude f now newId st).2).2) := rfl

/-- All preludes of a batch run while a flight is in flight join that flight
and leave the state untouched. -/
lemma runPreludes_all_joined (calls : List Bool) (now newId k : Nat) (st : SupaState)
    (h : st.sessionRefreshPromise = some k) :
    runPreludes calls now newId st = (List.replicate calls.length (.joined k), st) := by
  induction calls with
  | nil => rfl
  | cons f rest ih =>
    rw [runPreludes_cons]
    simp only [ensureFreshPrelude_joined f now newId k st h, ih]
    simp [List.replicate_succ]

/-- C2: refresh de-duplication.  First conjunct: for every non-empty batch of
overlapping `ensureFreshSession` calls (any mix of `force` flags) issued while
no session is cached and no refresh is in flight, exactly one network refresh
request is issued — the first call creates the flight, every later call joins
it — and every caller receives the same value, the result of that single
flight; afterwards no flight is left registered.  Second conjunct: any call
whose prelude runs while a refresh is already in flight returns the in-flight
promise without touching the state. -/
theorem ensureFreshSession_dedup :
    (∀ (calls : List Bool) (now : Nat) (env : FlightEnv) (st : SupaState),
      calls ≠ [] → st.cachedSession = none → st.sessionRefreshPromise = none →
      ∃ v st2, runOverlapping calls now env st = (List.replicate calls.length v, st2)
        ∧ st2.refreshNetworkCalls = st.refreshNetworkCalls + 1
        ∧ st2.sessionRefreshPromise = none)
    ∧ (∀ (force : Bool) (now newId k : Nat) (st : SupaState),
      st.sessionRefreshPromise = some k →
      ensureFreshPrelude force now newId st = (.joined k, st)) := by
  constructor
  · intro calls now env st hne hcache hflight
    cases calls with
    | nil => exact absurd rfl hne
    | cons f rest =>
      have h1 : ensureFreshPrelude f now 0 st
          = (.started 0, { st with sessionRefreshPromise := some 0 }) := by
        unfold ensureFreshPrelude
        rw [hflight, hcache]
      have h2 : runPreludes rest now 0 { st with sessionRefreshPromise := some 0 }
          = (List.replicate rest.length (.joined 0),
            { st with sessionRefreshPromise := some 0 }) :=
        runPreludes_all_joined rest now 0 0 _ rfl
      have hpre : runPreludes (f :: rest) now 0 st
          = ((.started 0) :: List.replicate rest.length (.joined 0),
            { st with sessionRefreshPromise := some 0 }) := by
        rw [runPreludes_cons]
        simp only [h1, h2]
      rcases hb : flightBody env now { st with sessionRefreshPromise := some 0 } with ⟨v, stB⟩
      refine ⟨v, { stB with sessionRefreshPromise := none }, ?_, ?_, rfl⟩
      · unfold runOverlapping
        simp only [hpre]
        unfold resolveFlight
        simp only [hb]
        simp [callerValue, List.replicate_succ, List.map_replicate]
      · have hc := flightBody_refreshCalls env now { st with sessionRefreshPromise := some 0 }
        rw [hb] at hc
        exact hc
  · exact fun force now newId k st h => ensureFreshPrelude_joined force now newId k st h

/-- Closed witness for C2: three overlapping calls from the initial state
(no cached session, no flight) produce one network refresh and all three
callers get the same value. -/
theorem ensureFreshSession_dedup_witness :
    ([false, false, false] ≠ ([] : List Bool))
    ∧ initSupaState.cachedSession = none
    ∧ initSupaState.sessionRefreshPromise = none
    ∧ ∃ v st2, runOverlapping [false, false, false] 1000 flightEnvGood initSupaState
        = (List.replicate 3 v, st2)
        ∧ st2.refreshNetworkCalls = initSupaState.refreshNetworkCalls + 1
        ∧ st2.sessionRefreshPromise = none :=
  ⟨by decide, rfl, rfl,
    ensureFreshSession_dedup.1 [false, false, false] 1000 flightEnvGood initSupaState
      (by decide) rfl rfl⟩

end AIImageEdit
